import Mathlib

/-!
# Verification of the fintech anomaly-detection risk pipeline

A shallow embedding, in Lean 4, of the risk-fusion core of the
`fintech_anomaly` repository (`server/risk_ml.py`, `server/routes.py`,
`server/audit.py`), together with theorems settling the frozen claims
about its specification.

Modelling conventions:
* Python floats are modelled as exact rationals (`ℚ`); the claims under
  study are about the ideal arithmetic of the pipeline, not about binary
  rounding.
* Python exceptions are modelled with `Except String`: a raised and
  uncaught exception is an `Except.error`.
* Python dictionaries with known key sets are modelled as structures;
  `dict.get` with a default becomes `Option.getD`.
-/

/-- The three discrete outcomes of the risk pipeline
(`"DECLINE"`, `"MANUAL REVIEW"`, `"APPROVE"` in the source). -/
inductive Decision where
  | DECLINE
  | MANUAL_REVIEW
  | APPROVE
deriving DecidableEq, Repr

/-- Decision block of `RiskMLService.calculate_risk_score`
(`risk_ml.py` lines 122-128): `if risk_score > 0.7` → DECLINE,
`elif risk_score >= 0.4` → MANUAL REVIEW, `else` → APPROVE. -/
def riskmlDecision (risk_score : ℚ) : Decision :=
  if risk_score > 0.7 then .DECLINE
  else if risk_score ≥ 0.4 then .MANUAL_REVIEW
  else .APPROVE

/-- Decision block of the `calculate_risk` route handler
(`routes.py` lines 274-280): `if final_risk > 0.7` → DECLINE,
`elif final_risk > 0.4` → MANUAL REVIEW, `else` → APPROVE.
Note the strict `>` on the lower boundary, unlike `riskmlDecision`. -/
def routesDecision (final_risk : ℚ) : Decision :=
  if final_risk > 0.7 then .DECLINE
  else if final_risk > 0.4 then .MANUAL_REVIEW
  else .APPROVE

/-- The `model_anomaly` component dict built by `calculate_risk_score`. -/
structure ModelAnomalyComponent where
  value : ℚ
  weight : ℚ
  contribution : ℚ
deriving DecidableEq, Repr

/-- The `amount_ratio` component dict built by `calculate_risk_score`
(also carries the raw, un-normalized ratio). -/
structure AmountRatioComponent where
  value : ℚ
  weight : ℚ
  contribution : ℚ
  raw_ratio : ℚ
deriving DecidableEq, Repr

/-- The `user_trust` component dict built by `calculate_risk_score`. -/
structure UserTrustComponent where
  value : ℚ
  weight : ℚ
  contribution : ℚ
  account_age_days : ℚ
deriving DecidableEq, Repr

/-- The `velocity` component dict built by `calculate_risk_score`. -/
structure VelocityComponent where
  value : ℚ
  weight : ℚ
  contribution : ℚ
  recent_count : ℕ
deriving DecidableEq, Repr

/-- The `components` dict of a fusion result. -/
structure RiskComponentsOut where
  model_anomaly : ModelAnomalyComponent
  amount_ratio : AmountRatioComponent
  user_trust : UserTrustComponent
  velocity : VelocityComponent
deriving DecidableEq, Repr

/-- The dict returned by `RiskMLService.calculate_risk_score`. -/
structure RiskResult where
  risk_score : ℚ
  decision : Decision
  components : RiskComponentsOut
deriving DecidableEq, Repr

/-- `RiskMLService.calculate_risk_score` (`risk_ml.py` lines 75-160):
the four weighted components, their sum, and the threshold decision.
Inputs are the fields the function reads: `transaction['amount']`,
`user_profile['avg_transaction']`, `user_profile['account_age_days']`,
the `ml_score` argument, and `len(recent_transactions)`.
Division by a zero `avg_transaction` raises, which the wrapping
`except` re-raises (`Error calculating risk score`). -/
def calculate_risk_score (amount avg_transaction account_age_days ml_score : ℚ)
    (recent_count : ℕ) : Except String RiskResult :=
  if avg_transaction = 0 then
    .error "Error calculating risk score: float division by zero"
  else
    let model_anomaly_value := ml_score
    let model_anomaly_weight : ℚ := 0.4
    let model_anomaly_contribution := model_anomaly_value * model_anomaly_weight
    let amount_ratio := amount / avg_transaction
    let amount_ratio_normalized := min (amount_ratio / 3.0) 1.0
    let amount_ratio_weight : ℚ := 0.3
    let amount_ratio_contribution := amount_ratio_normalized * amount_ratio_weight
    let user_trust_value := max 0 (1.0 - account_age_days / 365.0)
    let user_trust_weight : ℚ := 0.2
    let user_trust_contribution := user_trust_value * user_trust_weight
    let velocity_value := min ((recent_count : ℚ) / 5.0) 1.0
    let velocity_weight : ℚ := 0.1
    let velocity_contribution := velocity_value * velocity_weight
    let risk_score := model_anomaly_contribution + amount_ratio_contribution +
      user_trust_contribution + velocity_contribution
    .ok
      { risk_score := risk_score
        decision := riskmlDecision risk_score
        components :=
          { model_anomaly :=
              { value := model_anomaly_value
                weight := model_anomaly_weight
                contribution := model_anomaly_contribution }
            amount_ratio :=
              { value := amount_ratio_normalized
                weight := amount_ratio_weight
                contribution := amount_ratio_contribution
                raw_ratio := amount_ratio }
            user_trust :=
              { value := user_trust_value
                weight := user_trust_weight
                contribution := user_trust_contribution
                account_age_days := account_age_days }
            velocity :=
              { value := velocity_value
                weight := velocity_weight
                contribution := velocity_contribution
                recent_count := recent_count } } }


/-- The decision string persisted by the audit trail
(`"APPROVE"`, `"MANUAL REVIEW"`, `"DECLINE"`). -/
def Decision.toStr : Decision → String
  | .DECLINE => "DECLINE"
  | .MANUAL_REVIEW => "MANUAL REVIEW"
  | .APPROVE => "APPROVE"

/-- One weighted component dict of the `calculate_risk` route handler
(`routes.py` lines 248-269): `value`, `weight`, `contribution` only. -/
structure RoutesComponent where
  value : ℚ
  weight : ℚ
  contribution : ℚ
deriving DecidableEq, Repr

/-- The `risk_components` dict built by the `calculate_risk` route handler,
keyed `ml_anomaly` / `amount_ratio` / `user_trust` / `velocity`. -/
structure RoutesRiskComponents where
  ml_anomaly : RoutesComponent
  amount_ratio : RoutesComponent
  user_trust : RoutesComponent
  velocity : RoutesComponent
deriving DecidableEq, Repr

/-- Sum of the four `contribution` fields
(`final_risk = sum(comp['contribution'] for comp in risk_components.values())`,
`routes.py` line 272). -/
def RoutesRiskComponents.total (c : RoutesRiskComponents) : ℚ :=
  c.ml_anomaly.contribution + c.amount_ratio.contribution +
    c.user_trust.contribution + c.velocity.contribution

/-- Component computation of the `calculate_risk` route handler
(`routes.py` lines 233-269).  Inputs are `ml_score`, the transaction
`amount`, the profile's `avg_transaction` and `trust_score`, and the
count `recent_txns` of the user's transactions.  A zero
`avg_transaction` raises `ZeroDivisionError`. -/
def routesRiskComponents (ml_score amount avg_transaction trust_score : ℚ)
    (recent_txns : ℕ) : Except String RoutesRiskComponents :=
  if avg_transaction = 0 then .error "float division by zero"
  else
    let velocity_score := min ((recent_txns : ℚ) / 10.0) 1.0
    let amount_ratio := amount / avg_transaction
    let amount_ratio_score := min (amount_ratio / 3.0) 1.0
    let trust_risk := 1.0 - trust_score
    .ok
      { ml_anomaly := { value := ml_score, weight := 0.4, contribution := ml_score * 0.4 }
        amount_ratio :=
          { value := amount_ratio_score, weight := 0.3, contribution := amount_ratio_score * 0.3 }
        user_trust := { value := trust_risk, weight := 0.2, contribution := trust_risk * 0.2 }
        velocity :=
          { value := velocity_score, weight := 0.1, contribution := velocity_score * 0.1 } }

/-- One row of the `audit_logs` table (`audit.py` / `database.py`).
`decision_str` is the persisted decision string, `risk_components_json`
the serialized component breakdown, `timestamp` an abstract instant. -/
structure AuditEntry where
  id : ℕ
  transaction_id : ℕ
  user_id : String
  risk_score : ℚ
  decision_str : String
  risk_components_json : Option String
  explanation : Option String
  timestamp : ℤ
deriving DecidableEq, Repr

/-- `audit.log_decision` (`audit.py` lines 10-65): on a successful
database write (`dbOk = true`) it appends a new entry and returns it;
on failure it rolls back (store unchanged) and re-raises
`Failed to log decision`. -/
def log_decision (store : List AuditEntry) (dbOk : Bool) (transaction_id : ℕ)
    (user_id : String) (risk_score : ℚ) (decision_str : String)
    (risk_components_json : Option String) (explanation : Option String)
    (now : ℤ) : Except String (List AuditEntry × AuditEntry) :=
  if dbOk then
    let entry : AuditEntry :=
      { id := store.length + 1
        transaction_id := transaction_id
        user_id := user_id
        risk_score := risk_score
        decision_str := decision_str
        risk_components_json := risk_components_json
        explanation := explanation
        timestamp := now }
    .ok (store ++ [entry], entry)
  else .error "Failed to log decision: database write failed"

/-- Round half to even (Python's `round`). -/
def roundHalfEven (q : ℚ) : ℤ :=
  let f := ⌊q⌋
  let frac := q - f
  if frac < 1/2 then f
  else if 1/2 < frac then f + 1
  else if 2 ∣ f then f else f + 1

/-- Python's `round(x, 3)`. -/
def round3 (q : ℚ) : ℚ := (roundHalfEven (q * 1000) : ℚ) / 1000

/-- The JSON body returned by a successful `calculate_risk` request
(`routes.py` lines 295-300). -/
structure CalcRiskResponse where
  risk_score : ℚ
  decision : Decision
  components : RoutesRiskComponents
  audit_id : ℕ
deriving DecidableEq, Repr

/-- Core flow of the `calculate_risk` route handler
(`routes.py` lines 230-312) after request validation: compute the
components and `final_risk`, decide, call `log_decision`, and only then
build the response.  An exception from `log_decision` propagates to the
handler's outer `except`, which turns the whole request into an error
response (`500`); the store is returned unchanged in that case. -/
def calculate_risk_route (transaction_id : ℕ) (user_id : String)
    (amount avg_transaction trust_score ml_score : ℚ) (recent_txns : ℕ)
    (store : List AuditEntry) (dbOk : Bool) (components_json : Option String)
    (now : ℤ) : Except String (CalcRiskResponse × List AuditEntry) :=
  match routesRiskComponents ml_score amount avg_transaction trust_score recent_txns with
  | .error e => .error e
  | .ok comps =>
    let final_risk := comps.total
    let decision := routesDecision final_risk
    match log_decision store dbOk transaction_id user_id final_risk decision.toStr
        components_json none now with
    | .error e => .error e
    | .ok (store', entry) =>
      .ok
        ({ risk_score := round3 final_risk
           decision := decision
           components := comps
           audit_id := entry.id }, store')

/-- The fixed merchant-category catalogue of `extract_features`
(`risk_ml.py` line 22). -/
def merchant_categories : List String :=
  ["retail", "restaurant", "online", "gas", "grocery", "travel", "entertainment"]

/-- The dict returned by `RiskMLService.extract_features`
(`risk_ml.py` lines 28-35): the five-element feature vector plus the
named intermediate values. -/
structure FeatureData where
  features : List ℚ
  amount_ratio : ℚ
  hour : ℕ
  day : ℕ
  merchant_category_encoded : ℕ
  account_age_days : ℚ
deriving DecidableEq, Repr

/-- `RiskMLService.extract_features` (`risk_ml.py` lines 15-35).
`hour` and `day` stand for the hour / weekday of the already parsed
ISO-8601 timestamp (the datetime parsing itself is abstracted).
`amount_ratio = transaction['amount'] / user_profile['avg_transaction']`
raises `ZeroDivisionError` exactly when `avg_transaction` is zero; an
unknown merchant category silently encodes to index 0. -/
def extract_features (amount avg_transaction : ℚ) (hour day : ℕ)
    (merchant_category : String) (account_age_days : ℚ) : Except String FeatureData :=
  if avg_transaction = 0 then .error "ZeroDivisionError: float division by zero"
  else
    let amount_ratio := amount / avg_transaction
    let merchant_category_encoded :=
      if merchant_category ∈ merchant_categories then
        merchant_categories.indexOf merchant_category
      else 0
    .ok
      { features := [amount_ratio, (hour : ℚ), (day : ℚ),
          (merchant_category_encoded : ℚ), account_age_days]
        amount_ratio := amount_ratio
        hour := hour
        day := day
        merchant_category_encoded := merchant_category_encoded
        account_age_days := account_age_days }

/-- The four feature names paired with SHAP values in
`score_transaction` (`risk_ml.py` line 56) — note there are only four
names for the five-element feature vector. -/
def feature_names : List String := ["amount_ratio", "hour", "day", "merchant_category"]

/-- `shap_dict = {name: value for name, value in zip(feature_names, shap_values[0])}`
(`risk_ml.py` line 59): Python's `zip` truncates to the shorter list. -/
def shapPairs (shap_values : List ℚ) : List (String × ℚ) :=
  feature_names.zip shap_values

/-- The comparison underlying
`sorted(shap_dict.items(), key=lambda x: abs(x[1]), reverse=True)`:
`a` may come before `b` iff `|a.2| ≥ |b.2|`.  A stable sort with this
relation is exactly Python's stable descending sort by absolute value. -/
def shapGE (a b : String × ℚ) : Bool := |b.2| ≤ |a.2|

/-- The stable descending sort of `score_transaction`
(`risk_ml.py` line 60). -/
def sortedShap (pairs : List (String × ℚ)) : List (String × ℚ) :=
  pairs.mergeSort shapGE

/-- `sorted(...)[:3]` followed by `dict(...)` (`risk_ml.py` lines 60-64):
the top-3 attribution mapping, as an insertion-ordered association
list. -/
def topShap (pairs : List (String × ℚ)) : List (String × ℚ) :=
  (sortedShap pairs).take 3

/-- A loosely-typed Python value as it appears in request payload
dicts: a number, a string, or `None`. -/
inductive PyVal where
  | num (q : ℚ)
  | str (s : String)
  | pyNone
deriving DecidableEq, Repr

/-- Python's `f"{q:.2f}"` on an exact rational. -/
def fmt2 (q : ℚ) : String :=
  let n := roundHalfEven (q * 100)
  let sign := if n < 0 then "-" else ""
  let m := n.natAbs
  let frac := m % 100
  sign ++ toString (m / 100) ++ "." ++
    (if frac < 10 then "0" ++ toString frac else toString frac)

/-- Python `f"{v:.2f}"` on a loosely-typed value: formatting a
non-number raises. -/
def PyVal.fmt2E : PyVal → Except String String
  | .num q => .ok (fmt2 q)
  | .str _ => .error "ValueError: unknown format code f for object of type str"
  | .pyNone => .error "TypeError: unsupported format string passed to NoneType"

/-- Python `f"{v}"` / `str(v)` (total; the exact numeric rendering is
irrelevant to the claims). -/
def PyVal.toText : PyVal → String
  | .num q => toString q.num ++ (if q.den = 1 then "" else "/" ++ toString q.den)
  | .str s => s
  | .pyNone => "None"

/-- One sub-dict of the `risk_components` request payload
(`{'value': ..., 'weight': ..., 'contribution': ..., ...}`); only the
keys `generate_explanation` reads are modelled, each possibly absent. -/
structure ComponentDict where
  value : Option PyVal := none
  raw_ratio : Option PyVal := none
  account_age_days : Option PyVal := none
deriving DecidableEq, Repr

/-- The `risk_components` request payload dict; each component dict is
possibly absent (`dict.get(key, {})`). -/
structure RiskComponentsDict where
  model_anomaly : Option ComponentDict := none
  amount_ratio : Option ComponentDict := none
  user_trust : Option ComponentDict := none
  velocity : Option ComponentDict := none
deriving DecidableEq, Repr

/-- `risk_components.get('model_anomaly', {}).get('value', 0)`. -/
def RiskComponentsDict.modelAnomalyValue (rc : RiskComponentsDict) : PyVal :=
  ((rc.model_anomaly.getD {}).value).getD (.num 0)

/-- `risk_components.get('amount_ratio', {}).get('raw_ratio', 1)`. -/
def RiskComponentsDict.amountRatioRaw (rc : RiskComponentsDict) : PyVal :=
  ((rc.amount_ratio.getD {}).raw_ratio).getD (.num 1)

/-- `risk_components.get('user_trust', {}).get('value', 0)`. -/
def RiskComponentsDict.userTrustValue (rc : RiskComponentsDict) : PyVal :=
  ((rc.user_trust.getD {}).value).getD (.num 0)

/-- `risk_components.get('velocity', {}).get('value', 0)`. -/
def RiskComponentsDict.velocityValue (rc : RiskComponentsDict) : PyVal :=
  ((rc.velocity.getD {}).value).getD (.num 0)

/-- `risk_components.get('user_trust', {}).get('account_age_days', 0)`. -/
def RiskComponentsDict.accountAge (rc : RiskComponentsDict) : PyVal :=
  ((rc.user_trust.getD {}).account_age_days).getD (.num 0)

/-- Python truthiness of the `risk_components` payload: an empty dict is
falsy. -/
def RiskComponentsDict.isEmpty (rc : RiskComponentsDict) : Bool :=
  rc.model_anomaly.isNone && rc.amount_ratio.isNone &&
    rc.user_trust.isNone && rc.velocity.isNone

/-- The `transaction` request payload dict, with the keys the
explanation path reads. -/
structure TxDict where
  transaction_id : Option ℕ := none
  user_id : Option PyVal := none
  amount : Option PyVal := none
  merchant : Option PyVal := none
  merchant_category : Option PyVal := none
  timestamp : Option PyVal := none
deriving DecidableEq, Repr

/-- Python truthiness of the `transaction` payload: an empty dict is
falsy. -/
def TxDict.isEmpty (tx : TxDict) : Bool :=
  tx.transaction_id.isNone && tx.user_id.isNone && tx.amount.isNone &&
    tx.merchant.isNone && tx.merchant_category.isNone && tx.timestamp.isNone

/-- `d[key]`: a missing key raises `KeyError`. -/
def lookupE (v : Option PyVal) (key : String) : Except String PyVal :=
  match v with
  | some x => .ok x
  | none => .error ("KeyError: " ++ key)

/-- The prompt `generate_explanation` sends to the LLM
(`risk_ml.py` lines 206-222), assembled from the already formatted
pieces. -/
def groqPromptText (amountS merchantS categoryS userS ageS tsS maS arS utS vS
    decision : String) : String :=
  "You are a financial risk analyst. Explain this transaction decision in <100 tokens.\n\n" ++
  "TRANSACTION:\n- Amount: $" ++ amountS ++ "\n- Merchant: " ++ merchantS ++
  " (" ++ categoryS ++ ")\n- User: " ++ userS ++ " (account age: " ++ ageS ++
  " days)\n- Time: " ++ tsS ++ "\n\nRISK ANALYSIS:\n- ML Anomaly Score: " ++ maS ++
  "/1.0 (weight: 40%)\n- Amount Ratio: " ++ arS ++ "x avg (weight: 30%)\n" ++
  "- User Trust Score: " ++ utS ++ "/1.0 (weight: 20%)\n- Velocity Score: " ++ vS ++
  "/1.0 (weight: 10%)\n\nDECISION: " ++ decision ++
  "\n\nExplain why this decision was made. Focus on the top 2 risk factors. Be concise and actionable."

/-- The fallible prefix of `generate_explanation`'s `try` block
(`risk_ml.py` lines 183-223): extract the component values, format them
(`{model_anomaly:.2f}` etc. — raises on non-numeric values), check the
API key, and build the prompt.  Returns the prompt. -/
def groqPrompt (tx : TxDict) (rc : RiskComponentsDict) (decision : String)
    (hasApiKey : Bool) : Except String String := do
  let _ ← rc.modelAnomalyValue.fmt2E
  let _ ← rc.amountRatioRaw.fmt2E
  if !hasApiKey then
    throw "ValueError: Groq API key not found in environment"
  else
    let amt ← lookupE tx.amount "amount"
    let amtS ← amt.fmt2E
    let merch ← lookupE tx.merchant "merchant"
    let mcat ← lookupE tx.merchant_category "merchant_category"
    let ts ← lookupE tx.timestamp "timestamp"
    let maS ← rc.modelAnomalyValue.fmt2E
    let arS ← rc.amountRatioRaw.fmt2E
    let utS ← rc.userTrustValue.fmt2E
    let vS ← rc.velocityValue.fmt2E
    pure (groqPromptText amtS merch.toText mcat.toText
      (tx.user_id.getD (.str "Unknown")).toText rc.accountAge.toText ts.toText
      maS arS utS vS decision)

/-- The whole `try` block of `generate_explanation`
(`risk_ml.py` lines 183-250): build the prompt, call the LLM (outcome
given by `llm`; a timeout or API failure is an `Except.error`), and
return the stripped response. -/
def groqTryBody (tx : TxDict) (rc : RiskComponentsDict) (decision : String)
    (hasApiKey : Bool) (llm : Except String String) : Except String String := do
  let _ ← groqPrompt tx rc decision hasApiKey
  let explanation ← llm
  pure explanation.trim

/-- The primary fallback string of `generate_explanation`
(`risk_ml.py` line 260):
`f"Decision: {decision}. Primary risk factors: ML anomaly score ({model_score:.2f}) and amount ratio ({amount_ratio:.2f}x average)."` -/
def mlFallbackString (decision s1 s2 : String) : String :=
  "Decision: " ++ decision ++ ". Primary risk factors: ML anomaly score (" ++ s1 ++
    ") and amount ratio (" ++ s2 ++ "x average)."

/-- Modelled from the spec: the fallback template as the specification
words it — "Decision: {decision}. Primary risk factors: model anomaly
score ({value}) and amount ratio ({raw_ratio}x average)." — for
comparison with the one the source builds (`mlFallbackString`). -/
def specFallbackString (decision v r : String) : String :=
  "Decision: " ++ decision ++ ". Primary risk factors: model anomaly score (" ++ v ++
    ") and amount ratio (" ++ r ++ "x average)."

/-- The inner fallback `try` of `generate_explanation`
(`risk_ml.py` lines 257-260): re-extract and re-format the two values
(which can itself raise on non-numeric values). -/
def primaryFallback (rc : RiskComponentsDict) (decision : String) :
    Except String String := do
  let s1 ← rc.modelAnomalyValue.fmt2E
  let s2 ← rc.amountRatioRaw.fmt2E
  pure (mlFallbackString decision s1 s2)

/-- The ultimate fallback (`risk_ml.py` line 263). -/
def ultimateFallbackString (decision : String) : String :=
  "Decision: " ++ decision ++ ". Unable to generate detailed explanation due to technical error."

/-- `generate_explanation` (`risk_ml.py` lines 165-263): the `try`
body, its `except` falling back to the templated string, and the bare
`except` falling back to the ultimate string.  An `Except.error` result
would model an exception escaping the function. -/
def generate_explanation (tx : TxDict) (rc : RiskComponentsDict) (decision : String)
    (hasApiKey : Bool) (llm : Except String String) : Except String String :=
  match groqTryBody tx rc decision hasApiKey llm with
  | .ok s => .ok s
  | .error _ =>
    match primaryFallback rc decision with
    | .ok s => .ok s
    | .error _ => .ok (ultimateFallbackString decision)

/-- Update the explanation of the entry at position `i`
(`audit_entry.explanation = explanation; db.commit()`). -/
def setExplAt : List AuditEntry → ℕ → String → List AuditEntry
  | [], _, _ => []
  | e :: rest, 0, s => { e with explanation := some s } :: rest
  | e :: rest, n+1, s => e :: setExplAt rest n s

/-- Timestamps of the audit entries for a transaction id. -/
def matchingTimestamps (store : List AuditEntry) (txid : ℕ) : List ℤ :=
  (store.filter (fun e => e.transaction_id == txid)).map (fun e => e.timestamp)

/-- Index of the most recent audit entry for a transaction id:
`db.query(AuditLog).filter(transaction_id == txid).order_by(timestamp.desc()).first()`
(`routes.py` lines 384-386) — the first entry attaining the maximal
timestamp among the matches. -/
def mostRecentIdx (store : List AuditEntry) (txid : ℕ) : Option ℕ :=
  match (matchingTimestamps store txid).max? with
  | none => none
  | some m => store.findIdx? (fun e => e.transaction_id == txid && e.timestamp == m)

/-- The audit back-fill of `explain_decision` (`routes.py` lines
383-393): update the most recent matching entry's explanation, or do
nothing (a warning is only printed) when there is none.  The Boolean
reports whether an entry was found. -/
def attachExplanation (store : List AuditEntry) (txid : ℕ) (expl : String) :
    List AuditEntry × Bool :=
  match mostRecentIdx store txid with
  | none => (store, false)
  | some i => (setExplAt store i expl, true)

/-- The `explain_decision` route handler (`routes.py` lines 351-409):
validate the payload, generate the explanation, back-fill the audit
store when a (truthy) transaction id is present, and return the
explanation.  The handler never reports a missing audit entry to the
caller. -/
def explain_decision (tx : TxDict) (rc : RiskComponentsDict) (decision : String)
    (hasApiKey : Bool) (llm : Except String String) (store : List AuditEntry) :
    Except String String × List AuditEntry :=
  if decision = "" || tx.isEmpty || rc.isEmpty then
    (.error "Missing required fields", store)
  else
    match generate_explanation tx rc decision hasApiKey llm with
    | .error e => (.error e, store)
    | .ok explanation =>
      match tx.transaction_id with
      | none => (.ok explanation, store)
      | some txid =>
        if txid = 0 then (.ok explanation, store)
        else (.ok explanation, (attachExplanation store txid explanation).1)

/-- The exact result record produced by `calculate_risk_score` on the
inputs of Scenario A (`amount = 150`, `avg_transaction = 150`,
`account_age_days = 730`, `ml_score = 0.1`, `recent_count = 0`). -/
def scenarioA_result : RiskResult :=
  { risk_score := 7/50
    decision := .APPROVE
    components :=
      { model_anomaly := { value := 1/10, weight := 0.4, contribution := 1/25 }
        amount_ratio := { value := 1/3, weight := 0.3, contribution := 1/10, raw_ratio := 1 }
        user_trust := { value := 0, weight := 0.2, contribution := 0, account_age_days := 730 }
        velocity := { value := 0, weight := 0.1, contribution := 0, recent_count := 0 } } }

/-- The exact components record produced by `routesRiskComponents` on
`ml_score = 0.1`, `amount = 150`, `avg_transaction = 150`,
`trust_score = 0.5`, `recent_txns = 0`. -/
def scenarioA_routes : RoutesRiskComponents :=
  { ml_anomaly := { value := 1/10, weight := 0.4, contribution := 1/25 }
    amount_ratio := { value := 1/3, weight := 0.3, contribution := 1/10 }
    user_trust := { value := 1/2, weight := 0.2, contribution := 1/10 }
    velocity := { value := 0, weight := 0.1, contribution := 0 } }

/-- The feature data extracted on the Scenario-A transaction. -/
def fdScenario : FeatureData :=
  { features := [1, 10, 2, 0, 730]
    amount_ratio := 1
    hour := 10
    day := 2
    merchant_category_encoded := 0
    account_age_days := 730 }

/-- A concrete `risk_components` payload: model-anomaly value 0.25,
raw amount ratio 2. -/
def rcConcrete : RiskComponentsDict :=
  { model_anomaly := some { value := some (.num (1/4)) }
    amount_ratio := some { raw_ratio := some (.num 2) } }

/-- A concrete `transaction` payload. -/
def txConcrete : TxDict :=
  { transaction_id := some 7
    user_id := some (.str "user_001")
    amount := some (.num 150)
    merchant := some (.str "Acme Store")
    merchant_category := some (.str "retail")
    timestamp := some (.str "2024-01-15T14:30:00Z") }

/-- An audit entry for transaction 7 at time 10. -/
def auditW1 : AuditEntry :=
  { id := 1, transaction_id := 7, user_id := "user_001", risk_score := 0,
    decision_str := "APPROVE", risk_components_json := none, explanation := none,
    timestamp := 10 }

/-- An audit entry for a different transaction. -/
def auditW2 : AuditEntry :=
  { id := 2, transaction_id := 9, user_id := "user_002", risk_score := 0,
    decision_str := "DECLINE", risk_components_json := none, explanation := none,
    timestamp := 15 }

/-- A more recent audit entry for transaction 7, at time 20. -/
def auditW3 : AuditEntry :=
  { id := 3, transaction_id := 7, user_id := "user_001", risk_score := 0,
    decision_str := "MANUAL REVIEW", risk_components_json := none, explanation := none,
    timestamp := 20 }

/-- A concrete audit store with two entries for transaction 7. -/
def storeW : List AuditEntry := [auditW1, auditW2, auditW3]

-- ### Theorems ###

/-- Helper: full characterization of `riskmlDecision`. -/
theorem riskmlDecision_spec (r : ℚ) :
    (riskmlDecision r = .DECLINE ↔ 0.7 < r) ∧
    (riskmlDecision r = .MANUAL_REVIEW ↔ 0.4 ≤ r ∧ r ≤ 0.7) ∧
    (riskmlDecision r = .APPROVE ↔ r < 0.4) := by
  unfold riskmlDecision
  split_ifs with h1 h2
  · exact ⟨iff_of_true rfl h1, iff_of_false (by simp) (fun h => by linarith [h.2]),
      iff_of_false (by simp) (by linarith)⟩
  · exact ⟨iff_of_false (by simp) h1, iff_of_true rfl ⟨h2, by linarith⟩,
      iff_of_false (by simp) (by linarith)⟩
  · exact ⟨iff_of_false (by simp) h1, iff_of_false (by simp) (fun h => h2 h.1),
      iff_of_true rfl (by linarith)⟩

/-- Helper: full characterization of `routesDecision`. -/
theorem routesDecision_spec (r : ℚ) :
    (routesDecision r = .DECLINE ↔ 0.7 < r) ∧
    (routesDecision r = .MANUAL_REVIEW ↔ 0.4 < r ∧ r ≤ 0.7) ∧
    (routesDecision r = .APPROVE ↔ r ≤ 0.4) := by
  unfold routesDecision
  split_ifs with h1 h2
  · exact ⟨iff_of_true rfl h1, iff_of_false (by simp) (fun h => by linarith [h.2]),
      iff_of_false (by simp) (by linarith)⟩
  · exact ⟨iff_of_false (by simp) h1, iff_of_true rfl ⟨h2, by linarith⟩,
      iff_of_false (by simp) (by linarith)⟩
  · exact ⟨iff_of_false (by simp) h1, iff_of_false (by simp) (fun h => h2 h.1),
      iff_of_true rfl (by linarith)⟩

/-- C1, counterexample: in the `calculate_risk` route handler a final
risk score of exactly 0.4 yields APPROVE, not MANUAL REVIEW, so the
claimed boundary `0.4 ≤ r → MANUAL_REVIEW` does not hold in every
implementation of the fusion decision. -/
theorem C1_cex_routes_at_0_4 :
    routesDecision 0.4 = .APPROVE ∧ Decision.APPROVE ≠ Decision.MANUAL_REVIEW := by
  refine ⟨by norm_num [routesDecision], by simp⟩

/-- C1 (amended): the decision is a total function of the final risk
score in both implementations, with exact boundaries `r > 0.7 → DECLINE`
and `r ≤ 0.7` otherwise; but the lower boundary differs:
`calculate_risk_score` (risk_ml.py) uses `r ≥ 0.4` for MANUAL REVIEW, so
exactly 0.4 yields MANUAL REVIEW there, while the `calculate_risk` route
handler (routes.py) uses the strict `r > 0.4`, so exactly 0.4 yields
APPROVE there. -/
theorem C1_decision_thresholds :
    (∀ r : ℚ,
      (riskmlDecision r = .DECLINE ↔ 0.7 < r) ∧
      (riskmlDecision r = .MANUAL_REVIEW ↔ 0.4 ≤ r ∧ r ≤ 0.7) ∧
      (riskmlDecision r = .APPROVE ↔ r < 0.4) ∧
      (routesDecision r = .DECLINE ↔ 0.7 < r) ∧
      (routesDecision r = .MANUAL_REVIEW ↔ 0.4 < r ∧ r ≤ 0.7) ∧
      (routesDecision r = .APPROVE ↔ r ≤ 0.4)) ∧
    riskmlDecision 0.4 = .MANUAL_REVIEW ∧ routesDecision 0.4 = .APPROVE := by
  refine ⟨fun r => ?_, by norm_num [riskmlDecision], by norm_num [routesDecision]⟩
  obtain ⟨a1, a2, a3⟩ := riskmlDecision_spec r
  obtain ⟨b1, b2, b3⟩ := routesDecision_spec r
  exact ⟨a1, a2, a3, b1, b2, b3⟩

/-- Witness for C1: the amended characterization applied at concrete
risk scores. -/
theorem C1_decision_thresholds_witness :
    riskmlDecision 0.5 = .MANUAL_REVIEW ∧ routesDecision 0.8 = .DECLINE :=
  ⟨((C1_decision_thresholds.1 0.5).2.1).mpr (by norm_num),
   ((C1_decision_thresholds.1 0.8).2.2.2.1).mpr (by norm_num)⟩

/-- C2: in both fusion implementations the four components carry the
fixed weights 0.4 / 0.3 / 0.2 / 0.1, which sum to exactly 1; every
contribution equals its value times its weight; the returned risk score
is the sum of the four contributions; and the risk score lies in [0,1]
whenever each component value lies in [0,1]. -/
theorem C2_weights_and_sum (amount avg_transaction account_age_days ml_score trust_score : ℚ)
    (n m : ℕ) (r : RiskResult) (c : RoutesRiskComponents)
    (hr : calculate_risk_score amount avg_transaction account_age_days ml_score n = .ok r)
    (hc : routesRiskComponents ml_score amount avg_transaction trust_score m = .ok c) :
    (r.components.model_anomaly.weight = 0.4 ∧ r.components.amount_ratio.weight = 0.3 ∧
      r.components.user_trust.weight = 0.2 ∧ r.components.velocity.weight = 0.1 ∧
      r.components.model_anomaly.weight + r.components.amount_ratio.weight +
        r.components.user_trust.weight + r.components.velocity.weight = 1 ∧
      r.components.model_anomaly.contribution =
        r.components.model_anomaly.value * r.components.model_anomaly.weight ∧
      r.components.amount_ratio.contribution =
        r.components.amount_ratio.value * r.components.amount_ratio.weight ∧
      r.components.user_trust.contribution =
        r.components.user_trust.value * r.components.user_trust.weight ∧
      r.components.velocity.contribution =
        r.components.velocity.value * r.components.velocity.weight ∧
      r.risk_score = r.components.model_anomaly.contribution +
        r.components.amount_ratio.contribution + r.components.user_trust.contribution +
        r.components.velocity.contribution ∧
      (0 ≤ r.components.model_anomaly.value → r.components.model_anomaly.value ≤ 1 →
        0 ≤ r.components.amount_ratio.value → r.components.amount_ratio.value ≤ 1 →
        0 ≤ r.components.user_trust.value → r.components.user_trust.value ≤ 1 →
        0 ≤ r.components.velocity.value → r.components.velocity.value ≤ 1 →
        0 ≤ r.risk_score ∧ r.risk_score ≤ 1)) ∧
    (c.ml_anomaly.weight = 0.4 ∧ c.amount_ratio.weight = 0.3 ∧
      c.user_trust.weight = 0.2 ∧ c.velocity.weight = 0.1 ∧
      c.ml_anomaly.weight + c.amount_ratio.weight + c.user_trust.weight +
        c.velocity.weight = 1 ∧
      c.ml_anomaly.contribution = c.ml_anomaly.value * c.ml_anomaly.weight ∧
      c.amount_ratio.contribution = c.amount_ratio.value * c.amount_ratio.weight ∧
      c.user_trust.contribution = c.user_trust.value * c.user_trust.weight ∧
      c.velocity.contribution = c.velocity.value * c.velocity.weight ∧
      (0 ≤ c.ml_anomaly.value → c.ml_anomaly.value ≤ 1 →
        0 ≤ c.amount_ratio.value → c.amount_ratio.value ≤ 1 →
        0 ≤ c.user_trust.value → c.user_trust.value ≤ 1 →
        0 ≤ c.velocity.value → c.velocity.value ≤ 1 →
        0 ≤ c.total ∧ c.total ≤ 1)) := by
  by_cases h : avg_transaction = 0
  · simp [calculate_risk_score, if_pos h] at hr
  · simp only [calculate_risk_score, if_neg h, Except.ok.injEq] at hr
    simp only [routesRiskComponents, if_neg h, Except.ok.injEq] at hc
    subst hr
    subst hc
    dsimp only [RoutesRiskComponents.total]
    refine ⟨⟨rfl, rfl, rfl, rfl, by norm_num, rfl, rfl, rfl, rfl, rfl, ?_⟩,
      rfl, rfl, rfl, rfl, by norm_num, rfl, rfl, rfl, rfl, ?_⟩ <;>
    · intro h1 h2 h3 h4 h5 h6 h7 h8
      constructor <;> nlinarith [h1, h2, h3, h4, h5, h6, h7, h8]

/-- Evaluation of `calculate_risk_score` on Scenario A. -/
theorem scenarioA_eval :
    calculate_risk_score 150 150 730 (1/10) 0 = .ok scenarioA_result := by
  norm_num [calculate_risk_score, riskmlDecision, scenarioA_result, min_def, max_def]

/-- Evaluation of `routesRiskComponents` on the same transaction. -/
theorem scenarioA_routes_eval :
    routesRiskComponents (1/10) 150 150 (1/2) 0 = .ok scenarioA_routes := by
  norm_num [routesRiskComponents, scenarioA_routes, min_def, max_def]

/-- Witness for C2: the weight/contribution/sum facts at the concrete
Scenario-A call, with all hypotheses discharged. -/
theorem C2_weights_and_sum_witness :
    scenarioA_result.components.model_anomaly.weight = 0.4 ∧
    scenarioA_routes.ml_anomaly.weight = 0.4 ∧
    (0 ≤ scenarioA_result.risk_score ∧ scenarioA_result.risk_score ≤ 1) ∧
    (0 ≤ scenarioA_routes.total ∧ scenarioA_routes.total ≤ 1) := by
  have H := C2_weights_and_sum 150 150 730 (1/10) (1/2) 0 0 scenarioA_result scenarioA_routes
    scenarioA_eval scenarioA_routes_eval
  refine ⟨H.1.1, H.2.1, ?_, ?_⟩
  · exact H.1.2.2.2.2.2.2.2.2.2.2 (by norm_num [scenarioA_result]) (by norm_num [scenarioA_result])
      (by norm_num [scenarioA_result]) (by norm_num [scenarioA_result])
      (by norm_num [scenarioA_result]) (by norm_num [scenarioA_result])
      (by norm_num [scenarioA_result]) (by norm_num [scenarioA_result])
  · exact H.2.2.2.2.2.2.2.2.2.2 (by norm_num [scenarioA_routes]) (by norm_num [scenarioA_routes])
      (by norm_num [scenarioA_routes]) (by norm_num [scenarioA_routes])
      (by norm_num [scenarioA_routes]) (by norm_num [scenarioA_routes])
      (by norm_num [scenarioA_routes]) (by norm_num [scenarioA_routes])

/-- C3, counterexample: on the Scenario-A input the fusion's
`amount_ratio` component value is 1/3 (≈ 0.333), not 0.033, and the
risk score is 7/50 = 0.14, which is not approximately 0.05 (it is not
even below 0.1). -/
theorem C3_cex_scenarioA :
    calculate_risk_score 150 150 730 (1/10) 0 = .ok scenarioA_result ∧
    scenarioA_result.components.amount_ratio.value ≠ 33/1000 ∧
    scenarioA_result.components.amount_ratio.value - 33/1000 > 1/4 ∧
    ¬ scenarioA_result.risk_score < 1/10 := by
  refine ⟨scenarioA_eval, ?_, ?_, ?_⟩ <;> norm_num [scenarioA_result]

/-- C3 (amended): on the Scenario-A input (`avg_transaction = 150`,
`amount = 150`, `account_age_days = 730`, `recent_count = 0`,
`ml_score = 0.1`) the fusion produces `amount_ratio.value = 1/3 ≈ 0.333`
(the 1× raw ratio divided by the 3× cap), `user_trust.value = 0`,
`velocity.value = 0`, a risk score of `0.1*0.4 + (1/3)*0.3 = 0.14`, and
the decision APPROVE. -/
theorem C3_scenarioA :
    calculate_risk_score 150 150 730 (1/10) 0 = .ok scenarioA_result ∧
    scenarioA_result.components.amount_ratio.value = 1/3 ∧
    scenarioA_result.components.amount_ratio.raw_ratio = 1 ∧
    scenarioA_result.components.user_trust.value = 0 ∧
    scenarioA_result.components.velocity.value = 0 ∧
    scenarioA_result.risk_score = 1/10 * (4/10) + 1/3 * (3/10) ∧
    scenarioA_result.decision = .APPROVE := by
  refine ⟨scenarioA_eval, ?_, ?_, ?_, ?_, ?_, ?_⟩ <;> norm_num [scenarioA_result]

/-- C5, counterexample: on a concrete fusion request whose audit write
fails, the `calculate_risk` handler returns the audit error as the
request's error — the computed risk score and decision are not
returned, instead of succeeding with a degraded-audit marker. -/
theorem C5_cex_audit_failure_errors :
    calculate_risk_route 1 "user_001" 150 150 (1/2) (1/10) 0 [] false none 0 =
      .error "Failed to log decision: database write failed" := by
  simp only [calculate_risk_route, scenarioA_routes_eval, log_decision]
  simp

/-- C5 (amended): if the audit write performed as part of risk fusion
fails, the whole fusion request fails for the caller: the exception from
`log_decision` propagates to the handler's outer `except`, which turns
the request into an error response, and no response carrying the risk
score and decision is produced.  Only when the audit write succeeds is
the decision returned. -/
theorem C5_audit_failure_fails_request (tid : ℕ) (uid : String)
    (amount avg_transaction trust_score ml_score : ℚ) (recent : ℕ)
    (store : List AuditEntry) (cj : Option String) (now : ℤ)
    (h : avg_transaction ≠ 0) :
    calculate_risk_route tid uid amount avg_transaction trust_score ml_score recent
        store false cj now = .error "Failed to log decision: database write failed" ∧
    ∃ resp : CalcRiskResponse, ∃ store' : List AuditEntry,
      calculate_risk_route tid uid amount avg_transaction trust_score ml_score recent
          store true cj now = .ok (resp, store') := by
  obtain ⟨c, hc⟩ : ∃ c, routesRiskComponents ml_score amount avg_transaction
      trust_score recent = .ok c := by
    simp [routesRiskComponents, if_neg h]
  constructor
  · simp only [calculate_risk_route, hc, log_decision]
    simp
  · have hok : calculate_risk_route tid uid amount avg_transaction trust_score ml_score
        recent store true cj now = .ok
          ({ risk_score := round3 c.total
             decision := routesDecision c.total
             components := c
             audit_id := store.length + 1 },
           store ++ [{ id := store.length + 1
                       transaction_id := tid
                       user_id := uid
                       risk_score := c.total
                       decision_str := (routesDecision c.total).toStr
                       risk_components_json := cj
                       explanation := none
                       timestamp := now }]) := by
      simp only [calculate_risk_route, hc, log_decision]
      simp
    exact ⟨_, _, hok⟩

/-- Witness for C5: the amended statement at a concrete request. -/
theorem C5_audit_failure_witness :
    calculate_risk_route 2 "user_002" 150 150 (1/2) (1/10) 0 [] false none 0 =
      .error "Failed to log decision: database write failed" ∧
    ∃ resp : CalcRiskResponse, ∃ store' : List AuditEntry,
      calculate_risk_route 2 "user_002" 150 150 (1/2) (1/10) 0 [] true none 0 =
        .ok (resp, store') :=
  C5_audit_failure_fails_request 2 "user_002" 150 150 (1/2) (1/10) 0 [] none 0
    (by norm_num)

/-- `shapGE` is transitive. -/
theorem shapGE_trans (a b c : String × ℚ) (h1 : shapGE a b) (h2 : shapGE b c) :
    shapGE a c := by
  simp only [shapGE, decide_eq_true_eq] at h1 h2 ⊢
  exact le_trans h2 h1

/-- `shapGE` is total. -/
theorem shapGE_total (a b : String × ℚ) : shapGE a b || shapGE b a := by
  simp only [shapGE, Bool.or_eq_true, decide_eq_true_eq]
  exact le_total _ _

/-- C4: for every scored feature list, the attribution output has
exactly `min 3 n` entries, is ordered by descending absolute
contribution, is a prefix of a stable descending reordering of the
input — ties keep declaration order: for every magnitude, the entries
of that magnitude appear in exactly the input order. -/
theorem C4_top3_attribution (pairs : List (String × ℚ)) :
    (topShap pairs).length = min 3 pairs.length ∧
    List.Pairwise (fun a b : String × ℚ => |b.2| ≤ |a.2|) (topShap pairs) ∧
    (sortedShap pairs).Perm pairs ∧
    topShap pairs = (sortedShap pairs).take 3 ∧
    ∀ q : ℚ, (sortedShap pairs).filter (fun p => decide (|p.2| = q)) =
      pairs.filter (fun p => decide (|p.2| = q)) := by
  refine ⟨?_, ?_, ?_, rfl, ?_⟩
  · simp [topShap, sortedShap]
  · have hs := List.sorted_mergeSort shapGE_trans shapGE_total pairs
    have hp : List.Pairwise (fun a b : String × ℚ => |b.2| ≤ |a.2|)
        (sortedShap pairs) := by
      refine hs.imp ?_
      intro a b h
      simpa [shapGE] using h
    exact hp.sublist (List.take_sublist 3 _)
  · exact List.mergeSort_perm pairs shapGE
  · intro q
    have hpw : (pairs.filter (fun p => decide (|p.2| = q))).Pairwise
        (fun a b => shapGE a b = true) := by
      apply List.pairwise_of_forall_mem_list
      intro a ha b hb
      have ha' := (List.mem_filter.mp ha).2
      have hb' := (List.mem_filter.mp hb).2
      simp only [decide_eq_true_eq] at ha' hb'
      simp [shapGE, ha', hb']
    have hsub : List.Sublist (pairs.filter (fun p => decide (|p.2| = q)))
        (sortedShap pairs) :=
      List.sublist_mergeSort shapGE_trans shapGE_total hpw (List.filter_sublist pairs)
    have hsub2 : List.Sublist (pairs.filter (fun p => decide (|p.2| = q)))
        ((sortedShap pairs).filter (fun p => decide (|p.2| = q))) := by
      have h2 := hsub.filter (fun p => decide (|p.2| = q))
      rwa [List.filter_eq_self.mpr (fun a ha => (List.mem_filter.mp ha).2)] at h2
    have hlen : ((sortedShap pairs).filter (fun p => decide (|p.2| = q))).length =
        (pairs.filter (fun p => decide (|p.2| = q))).length :=
      ((List.mergeSort_perm pairs shapGE).filter _).length_eq
    exact (hsub2.eq_of_length hlen.symm).symm

/-- C8, counterexample: a profile with `avg_transaction = -50 ≤ 0` does
not make feature extraction fail — Python only raises
`ZeroDivisionError` for a zero divisor, so the claimed failure for all
non-positive averages is wrong. -/
theorem C8_cex_negative_avg :
    (-50 : ℚ) ≤ 0 ∧ (extract_features 150 (-50) 10 2 "retail" 365).isOk = true := by
  constructor
  · norm_num
  · norm_num [extract_features, Except.isOk, Except.toBool]

/-- C8 (amended): feature extraction computes `amount_ratio` as the
transaction amount divided by the profile's average transaction, and
fails with a `ZeroDivisionError` exactly when `avg_transaction` equals
0 — for every profile with `avg_transaction > 0` (and likewise for any
negative average) the error branch is unreachable. -/
theorem C8_amount_ratio_division (amount avg_transaction : ℚ) (hour day : ℕ)
    (cat : String) (age : ℚ) :
    ((extract_features amount avg_transaction hour day cat age).isOk = false ↔
      avg_transaction = 0) ∧
    (∀ fd, extract_features amount avg_transaction hour day cat age = .ok fd →
      fd.amount_ratio = amount / avg_transaction) ∧
    (0 < avg_transaction →
      (extract_features amount avg_transaction hour day cat age).isOk = true) := by
  by_cases h : avg_transaction = 0
  · subst h
    refine ⟨by simp [extract_features, Except.isOk, Except.toBool], ?_, by norm_num⟩
    intro fd hfd
    simp [extract_features] at hfd
  · refine ⟨by simp [extract_features, h, Except.isOk, Except.toBool], ?_,
      fun _ => by simp [extract_features, h, Except.isOk, Except.toBool]⟩
    intro fd hfd
    simp only [extract_features, if_neg h, Except.ok.injEq] at hfd
    subst hfd
    rfl

/-- Witness for C8: the amended statement applied at concrete calls. -/
theorem C8_division_witness :
    (extract_features 150 150 10 2 "retail" 730).isOk = true ∧
    ((extract_features 150 0 10 2 "retail" 730).isOk = false ↔ (0 : ℚ) = 0) :=
  ⟨(C8_amount_ratio_division 150 150 10 2 "retail" 730).2.2 (by norm_num),
   (C8_amount_ratio_division 150 0 10 2 "retail" 730).1⟩

/-- Evaluation of `extract_features` on the Scenario-A transaction. -/
theorem fdScenario_eval : extract_features 150 150 10 2 "retail" 730 = .ok fdScenario := by
  have henc : (if ("retail" : String) ∈ merchant_categories then
      merchant_categories.indexOf "retail" else 0) = 0 := by decide
  simp only [extract_features, if_neg (show (150 : ℚ) ≠ 0 by norm_num), henc]
  norm_num [fdScenario]

/-- C9: the attribution mapping's keys always come from the four-name
list `feature_names = [amount_ratio, hour, day, merchant_category]`;
in particular `account_age_days` never appears, even though the
extracted feature vector the model scores has five entries — `zip`
pairs the SHAP values with only four names. -/
theorem C9_attribution_keys (shap_values : List ℚ) (amount avg_transaction : ℚ)
    (hour day : ℕ) (cat : String) (age : ℚ) (fd : FeatureData)
    (hfd : extract_features amount avg_transaction hour day cat age = .ok fd) :
    (∀ p ∈ topShap (shapPairs shap_values), p.1 ∈ feature_names) ∧
    "account_age_days" ∉ (topShap (shapPairs shap_values)).map Prod.fst ∧
    fd.features.length = 5 ∧ feature_names.length = 4 := by
  have hkeys : ∀ p ∈ topShap (shapPairs shap_values), p.1 ∈ feature_names := by
    intro p hp
    have h1 : p ∈ sortedShap (shapPairs shap_values) :=
      (List.take_sublist 3 _).mem hp
    have h2 : p ∈ shapPairs shap_values := by
      rw [sortedShap] at h1
      exact List.mem_mergeSort.mp h1
    have h3 : (p.1, p.2) ∈ feature_names.zip shap_values := by
      rw [shapPairs] at h2
      simpa using h2
    exact (List.of_mem_zip h3).1
  refine ⟨hkeys, ?_, ?_, by decide⟩
  · intro hmem
    obtain ⟨p, hp, hp1⟩ := List.mem_map.mp hmem
    have := hkeys p hp
    rw [hp1] at this
    revert this
    decide
  · by_cases h : avg_transaction = 0
    · simp [extract_features, h] at hfd
    · simp only [extract_features, if_neg h, Except.ok.injEq] at hfd
      subst hfd
      rfl

/-- Witness for C9: the concrete SHAP list `[9, 7, 3, 1]` (already in
descending magnitude) and the Scenario-A feature extraction. -/
theorem C9_attribution_keys_witness :
    ("amount_ratio" : String) ∈ feature_names ∧
    "account_age_days" ∉ (topShap (shapPairs [9, 7, 3, 1])).map Prod.fst ∧
    fdScenario.features.length = 5 := by
  have H := C9_attribution_keys [9, 7, 3, 1] 150 150 10 2 "retail" 730 fdScenario
    fdScenario_eval
  refine ⟨H.1 ("amount_ratio", 9) ?_, H.2.1, H.2.2.1⟩
  have hps : shapPairs [9, 7, 3, 1] =
      [("amount_ratio", 9), ("hour", 7), ("day", 3), ("merchant_category", 1)] := by
    simp [shapPairs, feature_names]
  have hsorted : List.Pairwise (fun a b => shapGE a b = true)
      [("amount_ratio", (9 : ℚ)), ("hour", 7), ("day", 3), ("merchant_category", 1)] := by
    norm_num [shapGE, List.pairwise_cons]
  rw [topShap, sortedShap, hps, List.mergeSort_of_sorted hsorted]
  simp

/-- If the LLM call fails, the whole `try` body of
`generate_explanation` fails. -/
theorem groqTryBody_llm_error (tx : TxDict) (rc : RiskComponentsDict)
    (decision : String) (hasApiKey : Bool) (e : String) :
    ∃ msg, groqTryBody tx rc decision hasApiKey (.error e) = .error msg := by
  cases hp : groqPrompt tx rc decision hasApiKey with
  | error m => exact ⟨m, by rw [groqTryBody, hp]; rfl⟩
  | ok p => exact ⟨e, by rw [groqTryBody, hp]; rfl⟩

/-- The `try` body succeeds only with the stripped LLM response. -/
theorem groqTryBody_ok (tx : TxDict) (rc : RiskComponentsDict) (decision : String)
    (hasApiKey : Bool) (llm : Except String String) (s : String)
    (h : groqTryBody tx rc decision hasApiKey llm = .ok s) :
    ∃ t, llm = .ok t ∧ s = t.trim := by
  cases hp : groqPrompt tx rc decision hasApiKey with
  | error m =>
    rw [groqTryBody, hp] at h
    exact absurd h (fun hh => Except.noConfusion hh)
  | ok p =>
    cases hl : llm with
    | error m =>
      rw [groqTryBody, hp, hl] at h
      exact absurd h (fun hh => Except.noConfusion hh)
    | ok t =>
      rw [groqTryBody, hp, hl] at h
      exact ⟨t, rfl, (Except.ok.inj h).symm⟩

/-- The primary fallback succeeds only with the `ML anomaly score`
template. -/
theorem primaryFallback_ok (rc : RiskComponentsDict) (decision s : String)
    (h : primaryFallback rc decision = .ok s) :
    ∃ s1 s2, s = mlFallbackString decision s1 s2 := by
  cases h1 : rc.modelAnomalyValue.fmt2E with
  | error m =>
    rw [primaryFallback, h1] at h
    exact absurd h (fun hh => Except.noConfusion hh)
  | ok s1 =>
    cases h2 : rc.amountRatioRaw.fmt2E with
    | error m =>
      rw [primaryFallback, h1, h2] at h
      exact absurd h (fun hh => Except.noConfusion hh)
    | ok s2 =>
      rw [primaryFallback, h1, h2] at h
      exact ⟨s1, s2, (Except.ok.inj h).symm⟩

/-- On numeric component values the primary fallback always succeeds,
with the two values formatted to two decimals. -/
theorem primaryFallback_num (rc : RiskComponentsDict) (decision : String) (mv rv : ℚ)
    (hm : rc.modelAnomalyValue = .num mv) (hr : rc.amountRatioRaw = .num rv) :
    primaryFallback rc decision = .ok (mlFallbackString decision (fmt2 mv) (fmt2 rv)) := by
  rw [primaryFallback, hm, hr]; rfl

/-- C7 (amended): on any failure of the external explanation call the
generator returns exactly the deterministic templated string
"Decision: {decision}. Primary risk factors: ML anomaly score
({value:.2f}) and amount ratio ({raw_ratio:.2f}x average)." built from
the given decision and risk components (provided those are numbers,
as produced by risk fusion), and the explain-decision request still
succeeds, returning that explanation. -/
theorem C7_fallback_on_llm_failure (tx : TxDict) (rc : RiskComponentsDict)
    (decision : String) (hasApiKey : Bool) (e : String) (mv rv : ℚ)
    (store : List AuditEntry)
    (hm : rc.modelAnomalyValue = .num mv) (hr : rc.amountRatioRaw = .num rv)
    (hdec : decision ≠ "") (htx : tx.isEmpty = false) (hrc : rc.isEmpty = false) :
    generate_explanation tx rc decision hasApiKey (.error e) =
      .ok (mlFallbackString decision (fmt2 mv) (fmt2 rv)) ∧
    (explain_decision tx rc decision hasApiKey (.error e) store).1 =
      .ok (mlFallbackString decision (fmt2 mv) (fmt2 rv)) := by
  obtain ⟨msg, hmsg⟩ := groqTryBody_llm_error tx rc decision hasApiKey e
  have hgen : generate_explanation tx rc decision hasApiKey (.error e) =
      .ok (mlFallbackString decision (fmt2 mv) (fmt2 rv)) := by
    rw [generate_explanation, hmsg, primaryFallback_num rc decision mv rv hm hr]
  refine ⟨hgen, ?_⟩
  rw [explain_decision, if_neg (by simp [hdec, htx, hrc]), hgen]
  cases tx.transaction_id with
  | none => rfl
  | some txid =>
    by_cases h0 : txid = 0
    · simp [h0]
    · simp [h0]

/-- C10: `generate_explanation` is total — for every transaction
payload, component payload, decision string, API-key state and LLM
outcome it returns a string and never propagates an exception; the
result is the stripped LLM response, the templated `ML anomaly score`
fallback, or the ultimate fallback naming the decision. -/
theorem C10_generate_explanation_total (tx : TxDict) (rc : RiskComponentsDict)
    (decision : String) (hasApiKey : Bool) (llm : Except String String) :
    ∃ s, generate_explanation tx rc decision hasApiKey llm = .ok s ∧
      ((∃ t, llm = .ok t ∧ s = t.trim) ∨
       (∃ s1 s2, s = mlFallbackString decision s1 s2) ∨
       s = ultimateFallbackString decision) := by
  rw [generate_explanation]
  cases hb : groqTryBody tx rc decision hasApiKey llm with
  | ok s => exact ⟨s, rfl, .inl (groqTryBody_ok tx rc decision hasApiKey llm s hb)⟩
  | error m =>
    cases hp : primaryFallback rc decision with
    | ok s => exact ⟨s, rfl, .inr (.inl (primaryFallback_ok rc decision s hp))⟩
    | error m2 => exact ⟨_, rfl, .inr (.inr rfl)⟩

/-- `f"{0.25:.2f}"` is `"0.25"`. -/
theorem fmt2_quarter : fmt2 (1/4) = "0.25" := by
  have h : roundHalfEven ((1/4 : ℚ) * 100) = 25 := by norm_num [roundHalfEven]
  simp only [fmt2]
  rw [h]
  decide

/-- `f"{2.0:.2f}"` is `"2.00"`. -/
theorem fmt2_two : fmt2 2 = "2.00" := by
  have h : roundHalfEven ((2 : ℚ) * 100) = 200 := by norm_num [roundHalfEven]
  simp only [fmt2]
  rw [h]
  decide

/-- C7, counterexample: when the external call times out, the generator
returns the fallback reading "ML anomaly score", which differs from the
claimed template's "model anomaly score" — the claimed exact string is
never produced. -/
theorem C7_cex_template_wording :
    generate_explanation txConcrete rcConcrete "DECLINE" false
        (.error "APIConnectionError: Request timed out.") =
      .ok (mlFallbackString "DECLINE" "0.25" "2.00") ∧
    mlFallbackString "DECLINE" "0.25" "2.00" ≠
      specFallbackString "DECLINE" "0.25" "2.00" := by
  constructor
  · obtain ⟨msg, hmsg⟩ := groqTryBody_llm_error txConcrete rcConcrete "DECLINE" false
      "APIConnectionError: Request timed out."
    rw [generate_explanation, hmsg,
      primaryFallback_num rcConcrete "DECLINE" (1/4) 2 rfl rfl, fmt2_quarter, fmt2_two]
  · rw [mlFallbackString, specFallbackString]
    decide

/-- Witness for C7: the amended statement at the concrete payloads. -/
theorem C7_fallback_witness :
    generate_explanation txConcrete rcConcrete "MANUAL REVIEW" true
        (.error "APITimeoutError") =
      .ok (mlFallbackString "MANUAL REVIEW" (fmt2 (1/4)) (fmt2 2)) ∧
    (explain_decision txConcrete rcConcrete "MANUAL REVIEW" true
        (.error "APITimeoutError") []).1 =
      .ok (mlFallbackString "MANUAL REVIEW" (fmt2 (1/4)) (fmt2 2)) :=
  C7_fallback_on_llm_failure txConcrete rcConcrete "MANUAL REVIEW" true
    "APITimeoutError" (1/4) 2 [] rfl rfl (by decide) rfl rfl

/-- `setExplAt` preserves the store length. -/
theorem setExplAt_length (l : List AuditEntry) (i : ℕ) (s : String) :
    (setExplAt l i s).length = l.length := by
  induction l generalizing i with
  | nil => rfl
  | cons e rest ih =>
    cases i with
    | zero => rfl
    | succ n => simp [setExplAt, ih]

/-- `setExplAt` updates exactly the explanation of entry `i`. -/
theorem setExplAt_getElem_eq (l : List AuditEntry) (i : ℕ) (s : String) :
    (setExplAt l i s)[i]? = l[i]?.map (fun e => { e with explanation := some s }) := by
  induction l generalizing i with
  | nil => cases i <;> rfl
  | cons e rest ih =>
    cases i with
    | zero => simp [setExplAt]
    | succ n => simpa [setExplAt] using ih n

/-- `setExplAt` leaves every other entry untouched. -/
theorem setExplAt_getElem_ne (l : List AuditEntry) (i j : ℕ) (s : String)
    (h : j ≠ i) : (setExplAt l i s)[j]? = l[j]? := by
  induction l generalizing i j with
  | nil => rfl
  | cons e rest ih =>
    cases i with
    | zero =>
      cases j with
      | zero => exact absurd rfl h
      | succ m => simp [setExplAt]
    | succ n =>
      cases j with
      | zero => simp [setExplAt]
      | succ m =>
        simpa [setExplAt] using ih n m (fun hh => h (by rw [hh]))

/-- `generate_explanation` always succeeds (helper shared by the
explain-decision theorems). -/
theorem generate_explanation_isOk (tx : TxDict) (rc : RiskComponentsDict)
    (decision : String) (hasApiKey : Bool) (llm : Except String String) :
    ∃ s, generate_explanation tx rc decision hasApiKey llm = .ok s := by
  rw [generate_explanation]
  cases groqTryBody tx rc decision hasApiKey llm with
  | ok s => exact ⟨s, rfl⟩
  | error m =>
    cases primaryFallback rc decision with
    | ok s => exact ⟨s, rfl⟩
    | error m2 => exact ⟨_, rfl⟩

/-- C6 (amended): attaching an explanation for a transaction id with no
audit entry creates no new entry and leaves the store unchanged, but it
does not report not-found to the caller — the handler logs a warning
and still returns success; when entries do exist, only the most recent
entry for that id has its explanation field updated, and every other
field of every entry is unchanged. -/
theorem C6_attach_explanation (store : List AuditEntry) (txid : ℕ) (expl : String)
    (tx : TxDict) (rc : RiskComponentsDict) (decision : String) (hasApiKey : Bool)
    (llm : Except String String)
    (htxid : tx.transaction_id = some txid) (h0 : txid ≠ 0)
    (hdec : decision ≠ "") (htx : tx.isEmpty = false) (hrc : rc.isEmpty = false) :
    ((∀ e ∈ store, e.transaction_id ≠ txid) →
      attachExplanation store txid expl = (store, false) ∧
      ∃ s, explain_decision tx rc decision hasApiKey llm store = (.ok s, store)) ∧
    (∀ i, mostRecentIdx store txid = some i →
      ∃ e, store[i]? = some e ∧ e.transaction_id = txid ∧
        (matchingTimestamps store txid).max? = some e.timestamp ∧
        (attachExplanation store txid expl).1.length = store.length ∧
        (attachExplanation store txid expl).1[i]? =
          some { e with explanation := some expl } ∧
        ∀ j, j ≠ i → (attachExplanation store txid expl).1[j]? = store[j]?) := by
  constructor
  · intro hno
    have hts : matchingTimestamps store txid = [] := by
      rw [matchingTimestamps, List.filter_eq_nil_iff.mpr]
      · rfl
      · intro a ha
        simp [hno a ha]
    have hm : ∀ s : String, mostRecentIdx store txid = none := by
      intro s
      rw [mostRecentIdx, hts]
      rfl
    constructor
    · rw [attachExplanation, hm expl]
    · obtain ⟨s, hs⟩ := generate_explanation_isOk tx rc decision hasApiKey llm
      refine ⟨s, ?_⟩
      rw [explain_decision, if_neg (by simp [hdec, htx, hrc]), hs, htxid]
      simp only [h0, if_false, attachExplanation, hm s]
  · intro i hi
    rw [mostRecentIdx] at hi
    cases hmax : (matchingTimestamps store txid).max? with
    | none => rw [hmax] at hi; exact absurd hi (by simp)
    | some m =>
      rw [hmax] at hi
      obtain ⟨hlen, hp, hbefore⟩ := List.findIdx?_eq_some_iff_getElem.mp hi
      simp only [Bool.and_eq_true, beq_iff_eq] at hp
      have hA : attachExplanation store txid expl = (setExplAt store i expl, true) := by
        rw [attachExplanation, mostRecentIdx, hmax, hi]
      refine ⟨store[i], List.getElem?_eq_getElem hlen, hp.1, ?_, ?_, ?_, ?_⟩
      · rw [hp.2]
      · rw [hA]
        exact setExplAt_length store i expl
      · rw [hA]
        simp [setExplAt_getElem_eq, List.getElem?_eq_getElem hlen]
      · intro j hj
        rw [hA]
        exact setExplAt_getElem_ne store i j expl hj

/-- C6, counterexample: attaching an explanation for transaction id 7
against an empty audit store leaves the store unchanged and creates no
entry, but the handler does not report not-found — it returns success
with the explanation. -/
theorem C6_cex_not_found_not_reported :
    (explain_decision txConcrete rcConcrete "DECLINE" false
        (.error "APITimeoutError") []).2 = ([] : List AuditEntry) ∧
    (explain_decision txConcrete rcConcrete "DECLINE" false
        (.error "APITimeoutError") []).1 =
      .ok (mlFallbackString "DECLINE" "0.25" "2.00") := by
  obtain ⟨msg, hmsg⟩ := groqTryBody_llm_error txConcrete rcConcrete "DECLINE" false
    "APITimeoutError"
  have hgen : generate_explanation txConcrete rcConcrete "DECLINE" false
      (.error "APITimeoutError") = .ok (mlFallbackString "DECLINE" "0.25" "2.00") := by
    rw [generate_explanation, hmsg,
      primaryFallback_num rcConcrete "DECLINE" (1/4) 2 rfl rfl, fmt2_quarter, fmt2_two]
  constructor <;>
    rw [explain_decision, if_neg (by decide), hgen] <;> rfl

/-- Witness for C6: on the empty store nothing changes, and on `storeW`
only the most recent transaction-7 entry (index 2, timestamp 20) gets
the explanation, the others being untouched. -/
theorem C6_attach_explanation_witness :
    attachExplanation [] 7 "w" = ([], false) ∧
    (attachExplanation storeW 7 "w").1.length = storeW.length ∧
    (attachExplanation storeW 7 "w").1[2]? =
      some { auditW3 with explanation := some "w" } ∧
    (attachExplanation storeW 7 "w").1[0]? = storeW[0]? := by
  have H0 := (C6_attach_explanation [] 7 "w" txConcrete rcConcrete "DECLINE" false
    (.error "e") rfl (by decide) (by decide) rfl rfl).1 (by intro e he; cases he)
  have H := (C6_attach_explanation storeW 7 "w" txConcrete rcConcrete "DECLINE" false
    (.error "e") rfl (by decide) (by decide) rfl rfl).2 2 (by rfl)
  obtain ⟨e, he, htid, hmax, hlen, hset, hother⟩ := H
  have he3 : some auditW3 = some e := he
  cases Option.some.inj he3
  exact ⟨H0.1, hlen, hset, hother 0 (by decide)⟩
